import Mathlib

set_option autoImplicit false
set_option maxHeartbeats 1000000

/-!
Shallow embedding of `custom_components/pioneer_async/__init__.py`, the
entry-lifecycle adapter of the Pioneer AVR Home Assistant integration:
`async_setup_entry`, `_update_listener` and `async_unload_entry`.

External effects (calls into the `aiopioneer` client library, the host
framework's dispatcher, device registry and platform forwarding, and the
logger) are recorded in a trace of events; the outcomes of the external
calls (success, or the Python exception they raise) are inputs to the
embedded functions.  Python dicts are association lists; Python raised
exceptions are the `PyResult` outcomes `notReady` (a raised
`ConfigEntryNotReady`) and `exc` (any other unhandled exception).
-/

/-- Python exception classes relevant to the integration. -/
inductive PyExc
  | timeoutError
  | valueError
  | attributeError
  | keyError
  | other (code : Nat)
  deriving DecidableEq, Repr

/-- A decoded JSON value, as returned by Python's `json.loads`. -/
inductive JsonValue
  | null
  | bool (b : Bool)
  | num (n : Int)
  | str (s : String)
  | arr (items : List JsonValue)
  | obj (fields : List (String × JsonValue))
  deriving Repr

/-- Python truthiness (`if sources:`) of a decoded JSON value. -/
def JsonValue.truthy : JsonValue → Bool
  | .null => false
  | .bool b => b
  | .num n => n != 0
  | .str s => s != ""
  | .arr items => !items.isEmpty
  | .obj fields => !fields.isEmpty

/-- A Python value stored in a config-entry data or options dict. -/
inductive PyVal
  | str (s : String)
  | int (n : Int)
  | bool (b : Bool)
  deriving DecidableEq, Repr

/-- A Python dict with string keys, as an association list; lookup finds
the first binding, so earlier bindings shadow later ones. -/
abbrev PyDict := List (String × PyVal)

/-- Python `d[k]` lookup on an association list. -/
def dictGet {α : Type} : List (String × α) → String → Option α
  | [], _ => none
  | (k, v) :: rest, key => if k = key then some v else dictGet rest key

/-- Python `{**base, **over}` merge: bindings of `over` win on lookup. -/
def dictMerge {α : Type} (base over : List (String × α)) : List (String × α) :=
  over ++ base

/-- Python `d[k] = v` on the per-entry client map, where only the set of
stored keys matters (the client objects themselves are opaque). -/
def dictStore (l : List String) (key : String) : List String :=
  if key ∈ l then l else key :: l

/-- Key constants from `homeassistant.const`. -/
def CONF_HOST : String := "host"

def CONF_PORT : String := "port"

def CONF_NAME : String := "name"

def CONF_TIMEOUT : String := "timeout"

def CONF_SCAN_INTERVAL : String := "scan_interval"

/-- Modelled from the spec: `CONF_SOURCES` from this repository's
`const.py` (not under `src/`), the key of the JSON-encoded source-name
mapping in the options dict. -/
def CONF_SOURCES : String := "sources"

/-- Modelled from the spec: `OPTIONS_DEFAULTS` from this repository's
`const.py` (not under `src/`); per the spec the derived options mapping
merges defaults with entry overrides and includes scan interval, timeout
and the JSON-encoded source mapping, so the defaults bind those three
keys.  The concrete default values are representative. -/
def OPTIONS_DEFAULTS : PyDict :=
  [(CONF_SCAN_INTERVAL, .int 60), (CONF_TIMEOUT, .int 2), (CONF_SOURCES, .str "\x7b\x7d")]

/-- Modelled from the spec: `PIONEER_OPTIONS_UPDATE` from this
repository's `const.py` (not under `src/`), the options-update signal
topic prefix. -/
def PIONEER_OPTIONS_UPDATE : String := "pioneer_options_update"

/-- A Home Assistant config entry, as read by this integration. -/
structure ConfigEntry where
  entry_id : String
  unique_id : String
  data : PyDict
  options : PyDict

/-- Outcomes of the external `aiopioneer` client calls made during entry
setup: `none` is success, `some e` means the call raises `e`. -/
structure AVRBehavior where
  construct : Option PyExc
  connect : Option PyExc
  queryDeviceInfo : Option PyExc
  queryZones : Option PyExc
  setSourceDict : Option PyExc
  buildSourceDict : Option PyExc

/-- Externally observable effects of the lifecycle functions. -/
inductive Event
  | logInvalidSources (raw : PyVal)
  | constructClient (host port timeout scanInterval : PyVal) (params : PyDict)
  | connect
  | queryDeviceInfo
  | queryZones
  | setSourceDict (sources : JsonValue)
  | buildSourceDict
  | storeClient (entryId : String)
  | registerDevice (entryId uniqueId : String) (name : PyVal)
  | forwardSetup (platform : String)
  | addUpdateListener
  | dispatcherSend (topic : String) (options : PyDict)
  | forwardUnload (platform : String)
  | shutdownClient
  | popClient (entryId : String)
  deriving Repr

/-- How a Python coroutine call returns to the host framework. -/
inductive PyResult (α : Type)
  | ok (a : α)
  | notReady (cause : PyExc)
  | exc (e : PyExc)
  deriving DecidableEq, Repr

/-- Result of a lifecycle call: the trace of external effects, the Python
return or raise, and the per-entry client map afterwards. -/
structure Outcome where
  trace : List Event
  result : PyResult Bool
  store : List String

/-- Lines 65-69: `sources = json.loads(options[CONF_SOURCES])` under a bare
`except:` that logs and falls back to `{}`.  If `CONF_SOURCES` is missing,
the `options[CONF_SOURCES]` in the handler's log call raises `KeyError`
again, which propagates: that is the `none` outcome. -/
def decodeSources (loads : PyVal → Except PyExc JsonValue) (options : PyDict) :
    List Event × Option JsonValue :=
  match dictGet options CONF_SOURCES with
  | none => ([], none)
  | some raw =>
    match loads raw with
    | .ok j => ([], some j)
    | .error _ => ([.logInvalidSources raw], some (.obj []))

/-- Line 70: `params = {k: entry_options[k] for k in PARAMS_ALL if k in entry_options}`. -/
def filteredParams (paramsAll : List String) (entry_options : PyDict) : PyDict :=
  paramsAll.filterMap fun k => (dictGet entry_options k).map fun v => (k, v)

/-- Line 62: `options = {**OPTIONS_DEFAULTS, **entry_options}`. -/
def mergedOptions (entry_options : PyDict) : PyDict :=
  dictMerge OPTIONS_DEFAULTS entry_options

/-- Lines 87-88: `except (asyncio.TimeoutError, ValueError, AttributeError)`. -/
def handledExc : PyExc → Bool
  | .timeoutError => true
  | .valueError => true
  | .attributeError => true
  | _ => false

/-- `raise ConfigEntryNotReady from exc` for the handled exception classes,
re-raise otherwise. -/
def handleInitExc (e : PyExc) : PyResult Bool :=
  if handledExc e then .notReady e else .exc e

/-- Lines 72-113: the `try` block (client construction, connect, queries,
source-dict step) together with the success path (store client, register
device, forward platform setups, add update listener).  `preEvents` are
the log events already emitted while decoding the sources option. -/
def initPhase (hassData : List String) (entry : ConfigEntry) (name : PyVal)
    (preEvents : List Event) (sources : JsonValue)
    (host port timeout scan_interval : PyVal) (params : PyDict)
    (platforms : List String) (beh : AVRBehavior) : Outcome :=
  let tr0 := preEvents ++ [Event.constructClient host port timeout scan_interval params]
  match beh.construct with
  | some e => ⟨tr0, handleInitExc e, hassData⟩
  | none =>
    let tr1 := tr0 ++ [Event.connect]
    match beh.connect with
    | some e => ⟨tr1, handleInitExc e, hassData⟩
    | none =>
      let tr2 := tr1 ++ [Event.queryDeviceInfo]
      match beh.queryDeviceInfo with
      | some e => ⟨tr2, handleInitExc e, hassData⟩
      | none =>
        let tr3 := tr2 ++ [Event.queryZones]
        match beh.queryZones with
        | some e => ⟨tr3, handleInitExc e, hassData⟩
        | none =>
          let srcStep : List Event × Option PyExc :=
            if sources.truthy then
              ([Event.setSourceDict sources], beh.setSourceDict)
            else
              ([Event.buildSourceDict], beh.buildSourceDict)
          let tr4 := tr3 ++ srcStep.1
          match srcStep.2 with
          | some e => ⟨tr4, handleInitExc e, hassData⟩
          | none =>
            let tr5 := tr4 ++
              [Event.storeClient entry.entry_id,
               Event.registerDevice entry.entry_id entry.unique_id name] ++
              platforms.map Event.forwardSetup ++ [Event.addUpdateListener]
            ⟨tr5, .ok true, dictStore hassData entry.entry_id⟩

/-- `async_setup_entry(hass, entry)` (lines 47-115).  `hassData` is
`hass.data[DOMAIN]` restricted to its key set, `loads` is `json.loads`,
`paramsAll` is `aiopioneer.param.PARAMS_ALL`, `platforms` is `PLATFORMS`,
and `beh` gives the outcome of each client call.  The `data` lookups of
lines 57-59 and the options lookups of lines 63-64 raise `KeyError` when
the key is absent; those raises are outside any handler. -/
def async_setup_entry (hassData : List String) (entry : ConfigEntry)
    (loads : PyVal → Except PyExc JsonValue)
    (paramsAll : List String) (platforms : List String)
    (beh : AVRBehavior) : Outcome :=
  match dictGet entry.data CONF_HOST, dictGet entry.data CONF_PORT,
      dictGet entry.data CONF_NAME with
  | some host, some port, some name =>
    let entry_options := if entry.options.isEmpty then [] else entry.options
    let options := mergedOptions entry_options
    match dictGet options CONF_SCAN_INTERVAL, dictGet options CONF_TIMEOUT with
    | some scan_interval, some timeout =>
      match decodeSources loads options with
      | (_, none) => ⟨[], .exc .keyError, hassData⟩
      | (logEvents, some sources) =>
        initPhase hassData entry name logEvents sources host port timeout scan_interval
          (filteredParams paramsAll entry_options) platforms beh
    | _, _ => ⟨[], .exc .keyError, hassData⟩
  | _, _, _ => ⟨[], .exc .keyError, hassData⟩

/-- The f-string topic `f"..."` of line 122: the options-update prefix,
a dash, and the entry's unique id. -/
def optionsUpdateTopic (uniqueId : String) : String :=
  PIONEER_OPTIONS_UPDATE ++ "-" ++ uniqueId

/-- `_update_listener(hass, entry)` (lines 118-123): dispatch one signal,
touch nothing else, return nothing.  The pair is the trace of effects and
the per-entry client map afterwards.  Named without the leading
underscore. -/
def update_listener (hassData : List String) (entry : ConfigEntry) :
    List Event × List String :=
  ([Event.dispatcherSend (optionsUpdateTopic entry.unique_id) entry.options],
    hassData)

/-- `async_unload_entry(hass, entry)` (lines 126-145).  `unloadResult`
gives each platform's `async_forward_entry_unload` result and
`shutdownOut` the outcome of `pioneer.shutdown()` (`none` = success). -/
def async_unload_entry (hassData : List String) (entry : ConfigEntry)
    (platforms : List String) (unloadResult : String → Bool)
    (shutdownOut : Option PyExc) : Outcome :=
  let tr0 := platforms.map Event.forwardUnload
  let unload_ok := (platforms.map unloadResult).all id
  if entry.entry_id ∈ hassData then
    let tr1 := tr0 ++ [Event.shutdownClient]
    match shutdownOut with
    | some e => ⟨tr1, .exc e, hassData⟩
    | none =>
      if unload_ok then
        ⟨tr1 ++ [Event.popClient entry.entry_id], .ok true, hassData.erase entry.entry_id⟩
      else
        ⟨tr1, .ok false, hassData⟩
  else
    ⟨tr0, .exc .keyError, hassData⟩

/-! Classifiers for trace events, so that "operation X was invoked n
times" can be stated as a `countP` over the trace. -/

/-- Recognizes the sources-decode error log. -/
def isLogInvalidSources : Event → Bool
  | .logInvalidSources _ => true
  | _ => false

/-- Recognizes the `PioneerAVR(...)` constructor call. -/
def isConstructClient : Event → Bool
  | .constructClient .. => true
  | _ => false

/-- Recognizes `pioneer.set_source_dict(...)`. -/
def isSetSourceDict : Event → Bool
  | .setSourceDict _ => true
  | _ => false

/-- Recognizes `pioneer.build_source_dict()`. -/
def isBuildSourceDict : Event → Bool
  | .buildSourceDict => true
  | _ => false

/-- Recognizes the store of the client into `hass.data[DOMAIN]`. -/
def isStoreClient : Event → Bool
  | .storeClient _ => true
  | _ => false

/-- Recognizes `device_registry.async_get_or_create(...)`. -/
def isRegisterDevice : Event → Bool
  | .registerDevice .. => true
  | _ => false

/-- Recognizes `async_forward_entry_setup` scheduling. -/
def isForwardSetup : Event → Bool
  | .forwardSetup _ => true
  | _ => false

/-- Recognizes `entry.add_update_listener(...)`. -/
def isAddUpdateListener : Event → Bool
  | .addUpdateListener => true
  | _ => false

/-- Recognizes `async_dispatcher_send(...)`. -/
def isDispatcherSend : Event → Bool
  | .dispatcherSend .. => true
  | _ => false

/-- Recognizes `pioneer.shutdown()`. -/
def isShutdownClient : Event → Bool
  | .shutdownClient => true
  | _ => false

/-- Recognizes any call into the `aiopioneer` client made during entry
setup (constructor, connect, queries, source-dict step). -/
def isClientCall : Event → Bool
  | .constructClient .. => true
  | .connect => true
  | .queryDeviceInfo => true
  | .queryZones => true
  | .setSourceDict _ => true
  | .buildSourceDict => true
  | _ => false

/-- The four client calls preceding the source-dict step all succeed. -/
def preSourceOk (b : AVRBehavior) : Bool :=
  b.construct.isNone && b.connect.isNone && b.queryDeviceInfo.isNone && b.queryZones.isNone

/-- Every client call of the setup sequence succeeds. -/
def allOk (b : AVRBehavior) : Bool :=
  preSourceOk b && b.setSourceDict.isNone && b.buildSourceDict.isNone

/-- The first exception raised by the client-call sequence of the `try`
block (construct, connect, query device info, query zones, then the
source-dict step selected by truthiness), if any. -/
def firstInitFailure (beh : AVRBehavior) (useSet : Bool) : Option PyExc :=
  (((beh.construct.orElse fun _ => beh.connect).orElse fun _ =>
    beh.queryDeviceInfo).orElse fun _ => beh.queryZones).orElse fun _ =>
    if useSet then beh.setSourceDict else beh.buildSourceDict

/-! Basic lemmas about the dict model. -/

/-- Lookup in an appended association list: the left part wins. -/
theorem dictGet_append {α : Type} (a b : List (String × α)) (k : String) :
    dictGet (a ++ b) k = (dictGet a k).orElse fun _ => dictGet b k := by
  induction a with
  | nil => rfl
  | cons hd tl ih =>
    obtain ⟨k', v⟩ := hd
    by_cases h : k' = k <;> simp [dictGet, h, ih]

/-- Lookup in the merged options: the entry's own options win. -/
theorem dictGet_mergedOptions (eo : PyDict) (k : String) :
    dictGet (mergedOptions eo) k = (dictGet eo k).orElse fun _ => dictGet OPTIONS_DEFAULTS k := by
  simpa [mergedOptions, dictMerge] using dictGet_append eo OPTIONS_DEFAULTS k

/-- Python `if entry.options else {}` is the identity on the dict model. -/
theorem if_isEmpty_eq {α : Type} (l : List α) : (if l.isEmpty then [] else l) = l := by
  cases l <;> simp


/-- The merged options always bind the scan-interval key. -/
theorem mergedOptions_scan (eo : PyDict) :
    ∃ v, dictGet (mergedOptions eo) CONF_SCAN_INTERVAL = some v := by
  rw [dictGet_mergedOptions]
  cases h : dictGet eo CONF_SCAN_INTERVAL with
  | none => exact ⟨.int 60, by simp [Option.orElse, OPTIONS_DEFAULTS, dictGet]⟩
  | some v => exact ⟨v, by simp [Option.orElse]⟩

/-- The merged options always bind the timeout key. -/
theorem mergedOptions_timeout (eo : PyDict) :
    ∃ v, dictGet (mergedOptions eo) CONF_TIMEOUT = some v := by
  rw [dictGet_mergedOptions]
  cases h : dictGet eo CONF_TIMEOUT with
  | none =>
    exact ⟨.int 2, by
      simp [Option.orElse, OPTIONS_DEFAULTS, dictGet, CONF_TIMEOUT, CONF_SCAN_INTERVAL]⟩
  | some v => exact ⟨v, by simp [Option.orElse]⟩

/-- `decodeSources` emits at most a single error-log event, never any
other kind of event. -/
theorem decodeSources_fst (loads : PyVal → Except PyExc JsonValue) (o : PyDict) :
    (decodeSources loads o).1 = [] ∨
      ∃ raw, (decodeSources loads o).1 = [Event.logInvalidSources raw] := by
  cases h : dictGet o CONF_SOURCES with
  | none => exact Or.inl (by simp [decodeSources, h])
  | some raw =>
    cases hl : loads raw with
    | ok j => exact Or.inl (by simp [decodeSources, h, hl])
    | error e => exact Or.inr ⟨raw, by simp [decodeSources, h, hl]⟩

/-- Reduction of `async_setup_entry` to the `try`-block phase, once the
data keys are present and the sources option decoded. -/
theorem async_setup_entry_reach (hassData : List String) (entry : ConfigEntry)
    (loads : PyVal → Except PyExc JsonValue)
    (paramsAll : List String) (platforms : List String) (beh : AVRBehavior)
    (host port name si tmo : PyVal) (evs : List Event) (s : JsonValue)
    (hhost : dictGet entry.data CONF_HOST = some host)
    (hport : dictGet entry.data CONF_PORT = some port)
    (hname : dictGet entry.data CONF_NAME = some name)
    (hsi : dictGet (mergedOptions entry.options) CONF_SCAN_INTERVAL = some si)
    (hto : dictGet (mergedOptions entry.options) CONF_TIMEOUT = some tmo)
    (hdec : decodeSources loads (mergedOptions entry.options) = (evs, some s)) :
    async_setup_entry hassData entry loads paramsAll platforms beh =
      initPhase hassData entry name evs s host port tmo si
        (filteredParams paramsAll entry.options) platforms beh := by
  unfold async_setup_entry
  rw [hhost, hport, hname]
  simp only [if_isEmpty_eq]
  rw [hsi, hto, hdec]

/-- Mapped events that never satisfy a predicate contribute no count. -/
theorem countP_map_eq_zero {α β : Type} (f : α → β) (p : β → Bool) (l : List α)
    (h : ∀ a, p (f a) = false) : (l.map f).countP p = 0 := by
  induction l <;> simp_all

/-- Mapped events that never satisfy a predicate are filtered away. -/
theorem filter_map_eq_nil {α β : Type} (f : α → β) (p : β → Bool) (l : List α)
    (h : ∀ a, p (f a) = false) : (l.map f).filter p = [] := by
  induction l <;> simp_all

/-! Concrete demonstration inputs, used to instantiate the theorems. -/

/-- A demonstration `json.loads` behaviour: one raw string decodes to a
non-empty source mapping, one to the empty mapping, everything else is
malformed. -/
def loadsDemo : PyVal → Except PyExc JsonValue
  | .str "srcjson" => .ok (.obj [("TV", .str "05")])
  | .str "emptyobj" => .ok (.obj [])
  | _ => .error .valueError

/-- Client behaviour in which every call succeeds. -/
def behOk : AVRBehavior := ⟨none, none, none, none, none, none⟩

/-- Demonstration config-entry data with host, port and name. -/
def demoData : PyDict :=
  [(CONF_HOST, .str "avr.local"), (CONF_PORT, .int 8102), (CONF_NAME, .str "AVR")]

/-- Entry whose sources option decodes to a non-empty mapping. -/
def demoEntry : ConfigEntry :=
  ⟨"entry1", "uid1", demoData, [(CONF_SOURCES, .str "srcjson")]⟩

/-- Entry whose sources option decodes to the empty mapping. -/
def demoEntryEmpty : ConfigEntry :=
  ⟨"entry1", "uid1", demoData, [(CONF_SOURCES, .str "emptyobj")]⟩

/-- Entry whose sources option is malformed JSON. -/
def demoEntryBad : ConfigEntry :=
  ⟨"entry1", "uid1", demoData, [(CONF_SOURCES, .str "notjson")]⟩

/-- A second entry with a different unique id. -/
def demoEntry2 : ConfigEntry := ⟨"entry2", "uid2", demoData, []⟩

/-- C9: the options-update handler emits exactly one dispatcher signal, on
the topic formed from the options-update prefix and the entry's unique id,
carrying the entry's options map; it leaves the per-entry client map
unchanged, and entries with different unique ids get different topics. -/
theorem update_listener_single_scoped_signal (hassData : List String)
    (X Y : ConfigEntry) (hne : X.unique_id ≠ Y.unique_id) :
    (update_listener hassData X).1 =
      [Event.dispatcherSend (optionsUpdateTopic X.unique_id) X.options] ∧
    (update_listener hassData X).2 = hassData ∧
    optionsUpdateTopic X.unique_id ≠ optionsUpdateTopic Y.unique_id := by
  refine ⟨rfl, rfl, fun h => hne ?_⟩
  have hd := congrArg String.data h
  simp only [optionsUpdateTopic, String.data_append] at hd
  exact String.ext (List.append_cancel_left hd)

/-- Witness for C9 at two concrete entries. -/
theorem update_listener_single_scoped_signal_witness :
    (update_listener [] demoEntry).1 =
      [Event.dispatcherSend (optionsUpdateTopic demoEntry.unique_id) demoEntry.options] ∧
    (update_listener [] demoEntry).2 = [] ∧
    optionsUpdateTopic demoEntry.unique_id ≠ optionsUpdateTopic demoEntry2.unique_id :=
  update_listener_single_scoped_signal [] demoEntry demoEntry2 (by decide)

/-- C5: whenever a client is stored for the entry, unload invokes the
client's shutdown exactly once, whatever the platform unload results and
the shutdown outcome are. -/
theorem unload_always_shuts_down (hassData : List String) (entry : ConfigEntry)
    (platforms : List String) (unloadResult : String → Bool)
    (shutdownOut : Option PyExc) (hmem : entry.entry_id ∈ hassData) :
    ((async_unload_entry hassData entry platforms unloadResult shutdownOut).trace.countP
      isShutdownClient) = 1 := by
  have hz := countP_map_eq_zero Event.forwardUnload isShutdownClient platforms
    fun _ => rfl
  cases shutdownOut with
  | some e => simp [async_unload_entry, hmem, hz, isShutdownClient]
  | none =>
    cases hall : (platforms.map unloadResult).all id <;>
      simp [async_unload_entry, hmem, hall, hz, isShutdownClient]

/-- Witness for C5: shutdown is invoked even when every platform unload
fails. -/
theorem unload_always_shuts_down_witness :
    ((async_unload_entry ["entry1"] demoEntry ["media_player"] (fun _ => false)
      none).trace.countP isShutdownClient) = 1 :=
  unload_always_shuts_down ["entry1"] demoEntry ["media_player"] (fun _ => false)
    none (by decide)

/-- C4: unload returns the conjunction of the platform unload results;
when they all succeed the stored client reference is removed from the
per-entry map, otherwise the map is left unchanged. -/
theorem unload_removes_iff_all_platforms_ok (hassData : List String)
    (entry : ConfigEntry) (platforms : List String)
    (unloadResult : String → Bool)
    (hmem : entry.entry_id ∈ hassData) (hnd : hassData.Nodup) :
    (async_unload_entry hassData entry platforms unloadResult none).result =
      .ok ((platforms.map unloadResult).all id) ∧
    ((platforms.map unloadResult).all id = true →
      (async_unload_entry hassData entry platforms unloadResult none).store =
        hassData.erase entry.entry_id ∧
      entry.entry_id ∉
        (async_unload_entry hassData entry platforms unloadResult none).store) ∧
    ((platforms.map unloadResult).all id = false →
      (async_unload_entry hassData entry platforms unloadResult none).store =
        hassData) := by
  cases hall : (platforms.map unloadResult).all id with
  | true =>
    refine ⟨by simp [async_unload_entry, hmem, hall], fun _ => ⟨?_, ?_⟩, fun h => by simp_all⟩
    · simp [async_unload_entry, hmem, hall]
    · simp [async_unload_entry, hmem, hall, hnd.mem_erase_iff]
  | false =>
    exact ⟨by simp [async_unload_entry, hmem, hall], fun h => by simp_all,
      fun _ => by simp [async_unload_entry, hmem, hall]⟩

/-- Witness for C4 at a concrete stored entry with an all-success unload. -/
theorem unload_removes_iff_all_platforms_ok_witness :
    (async_unload_entry ["entry1"] demoEntry ["media_player"] (fun _ => true)
      none).result = .ok ((["media_player"].map fun _ => true).all id) ∧
    ((["media_player"].map fun _ => true).all id = true →
      (async_unload_entry ["entry1"] demoEntry ["media_player"] (fun _ => true)
        none).store = ["entry1"].erase demoEntry.entry_id ∧
      demoEntry.entry_id ∉
        (async_unload_entry ["entry1"] demoEntry ["media_player"] (fun _ => true)
          none).store) ∧
    ((["media_player"].map fun _ => true).all id = false →
      (async_unload_entry ["entry1"] demoEntry ["media_player"] (fun _ => true)
        none).store = ["entry1"]) :=
  unload_removes_iff_all_platforms_ok ["entry1"] demoEntry ["media_player"]
    (fun _ => true) (by decide) (by decide)

/-- C7: with the data keys present and the sources option decoded, a setup
in which every client call succeeds performs the client calls in exactly
this order: construct, connect, query device info, query zones, then
exactly one of set-source-dict (truthy decoded sources) or
build-source-dict (falsy decoded sources). -/
theorem setup_client_call_order (hassData : List String) (entry : ConfigEntry)
    (loads : PyVal → Except PyExc JsonValue) (paramsAll platforms : List String)
    (beh : AVRBehavior) (host port name si tmo : PyVal) (evs : List Event)
    (s : JsonValue)
    (hhost : dictGet entry.data CONF_HOST = some host)
    (hport : dictGet entry.data CONF_PORT = some port)
    (hname : dictGet entry.data CONF_NAME = some name)
    (hsi : dictGet (mergedOptions entry.options) CONF_SCAN_INTERVAL = some si)
    (hto : dictGet (mergedOptions entry.options) CONF_TIMEOUT = some tmo)
    (hdec : decodeSources loads (mergedOptions entry.options) = (evs, some s))
    (hok : allOk beh = true) :
    (async_setup_entry hassData entry loads paramsAll platforms beh).trace.filter
      isClientCall =
      [Event.constructClient host port tmo si (filteredParams paramsAll entry.options),
       Event.connect, Event.queryDeviceInfo, Event.queryZones,
       if s.truthy then Event.setSourceDict s else Event.buildSourceDict] := by
  rw [async_setup_entry_reach hassData entry loads paramsAll platforms beh host port
    name si tmo evs s hhost hport hname hsi hto hdec]
  have hevs := decodeSources_fst loads (mergedOptions entry.options)
  rw [hdec] at hevs
  rcases beh with ⟨c, cn, qd, qz, ss, bs⟩
  simp only [allOk, preSourceOk, Bool.and_eq_true, Option.isNone_iff_eq_none] at hok
  obtain ⟨⟨⟨⟨⟨hc, hcn⟩, hqd⟩, hqz⟩, hss⟩, hbs⟩ := hok
  subst hc hcn hqd hqz hss hbs
  have hfp := filter_map_eq_nil Event.forwardSetup isClientCall platforms fun _ => rfl
  rcases hevs with hevs | ⟨raw, hevs⟩ <;> subst hevs <;>
    cases ht : s.truthy <;> simp [initPhase, ht, isClientCall, hfp]

/-- Witness for C7 at a concrete entry with truthy decoded sources. -/
theorem setup_client_call_order_witness :
    (async_setup_entry [] demoEntry loadsDemo ["volume_step"] ["media_player"]
      behOk).trace.filter isClientCall =
      [Event.constructClient (.str "avr.local") (.int 8102) (.int 2) (.int 60)
        (filteredParams ["volume_step"] demoEntry.options),
       Event.connect, Event.queryDeviceInfo, Event.queryZones,
       if (JsonValue.obj [("TV", JsonValue.str "05")]).truthy then
         Event.setSourceDict (JsonValue.obj [("TV", JsonValue.str "05")])
       else Event.buildSourceDict] :=
  setup_client_call_order [] demoEntry loadsDemo ["volume_step"] ["media_player"]
    behOk (.str "avr.local") (.int 8102) (.str "AVR") (.int 60) (.int 2) []
    (JsonValue.obj [("TV", JsonValue.str "05")]) rfl rfl rfl rfl rfl rfl rfl

/-- C1 counterexample: the sources option of `demoEntryEmpty` is a
well-formed JSON string (it decodes successfully, to the empty mapping),
yet setup invokes auto-discovery once and the explicit mapping never. -/
theorem setup_wellformed_sources_counterexample :
    loadsDemo (.str "emptyobj") = .ok (.obj []) ∧
    (async_setup_entry [] demoEntryEmpty loadsDemo [] ["media_player"]
      behOk).trace.countP isBuildSourceDict = 1 ∧
    (async_setup_entry [] demoEntryEmpty loadsDemo [] ["media_player"]
      behOk).trace.countP isSetSourceDict = 0 :=
  ⟨rfl, rfl, rfl⟩

/-- C1 (amended): when the sources option is a well-formed JSON string
decoding to a truthy (non-empty) value, setup never invokes
auto-discovery, and whenever the client calls before the source step
succeed it applies the explicit mapping via set-source-dict exactly
once. -/
theorem setup_truthy_sources_use_explicit_mapping (hassData : List String)
    (entry : ConfigEntry) (loads : PyVal → Except PyExc JsonValue)
    (paramsAll platforms : List String) (beh : AVRBehavior)
    (host port name si tmo raw : PyVal) (s : JsonValue)
    (hhost : dictGet entry.data CONF_HOST = some host)
    (hport : dictGet entry.data CONF_PORT = some port)
    (hname : dictGet entry.data CONF_NAME = some name)
    (hsi : dictGet (mergedOptions entry.options) CONF_SCAN_INTERVAL = some si)
    (hto : dictGet (mergedOptions entry.options) CONF_TIMEOUT = some tmo)
    (hraw : dictGet (mergedOptions entry.options) CONF_SOURCES = some raw)
    (hok : loads raw = .ok s) (ht : s.truthy = true) :
    (async_setup_entry hassData entry loads paramsAll platforms beh).trace.countP
      isBuildSourceDict = 0 ∧
    (preSourceOk beh = true →
      (async_setup_entry hassData entry loads paramsAll platforms beh).trace.countP
        isSetSourceDict = 1) := by
  have hdec : decodeSources loads (mergedOptions entry.options) = ([], some s) := by
    simp [decodeSources, hraw, hok]
  rw [async_setup_entry_reach hassData entry loads paramsAll platforms beh host port
    name si tmo [] s hhost hport hname hsi hto hdec]
  have hzb := countP_map_eq_zero Event.forwardSetup isBuildSourceDict platforms
    fun _ => rfl
  have hzs := countP_map_eq_zero Event.forwardSetup isSetSourceDict platforms
    fun _ => rfl
  rcases beh with ⟨c, cn, qd, qz, ss, bs⟩
  constructor
  · cases c <;> cases cn <;> cases qd <;> cases qz <;> cases ss <;>
      simp [initPhase, ht, isBuildSourceDict, hzb]
  · intro hpre
    simp only [preSourceOk, Bool.and_eq_true, Option.isNone_iff_eq_none] at hpre
    obtain ⟨⟨⟨hc, hcn⟩, hqd⟩, hqz⟩ := hpre
    subst hc hcn hqd hqz
    cases ss <;> simp [initPhase, ht, isSetSourceDict, hzs]

/-- Witness for C1 (amended) at a concrete entry with truthy sources. -/
theorem setup_truthy_sources_use_explicit_mapping_witness :
    (async_setup_entry [] demoEntry loadsDemo [] ["media_player"]
      behOk).trace.countP isBuildSourceDict = 0 ∧
    (preSourceOk behOk = true →
      (async_setup_entry [] demoEntry loadsDemo [] ["media_player"]
        behOk).trace.countP isSetSourceDict = 1) :=
  setup_truthy_sources_use_explicit_mapping [] demoEntry loadsDemo []
    ["media_player"] behOk (.str "avr.local") (.int 8102) (.str "AVR") (.int 60)
    (.int 2) (.str "srcjson") (JsonValue.obj [("TV", JsonValue.str "05")])
    rfl rfl rfl rfl rfl rfl rfl rfl

/-- C6: when the sources option decodes to the empty mapping, setup never
calls set-source-dict, invokes auto-discovery at most once, and exactly
once whenever the client calls before the source step succeed. -/
theorem setup_empty_sources_builds_once (hassData : List String)
    (entry : ConfigEntry) (loads : PyVal → Except PyExc JsonValue)
    (paramsAll platforms : List String) (beh : AVRBehavior)
    (host port name si tmo raw : PyVal)
    (hhost : dictGet entry.data CONF_HOST = some host)
    (hport : dictGet entry.data CONF_PORT = some port)
    (hname : dictGet entry.data CONF_NAME = some name)
    (hsi : dictGet (mergedOptions entry.options) CONF_SCAN_INTERVAL = some si)
    (hto : dictGet (mergedOptions entry.options) CONF_TIMEOUT = some tmo)
    (hraw : dictGet (mergedOptions entry.options) CONF_SOURCES = some raw)
    (hok : loads raw = .ok (.obj [])) :
    (async_setup_entry hassData entry loads paramsAll platforms beh).trace.countP
      isSetSourceDict = 0 ∧
    (async_setup_entry hassData entry loads paramsAll platforms beh).trace.countP
      isBuildSourceDict ≤ 1 ∧
    (preSourceOk beh = true →
      (async_setup_entry hassData entry loads paramsAll platforms beh).trace.countP
        isBuildSourceDict = 1) := by
  have hdec : decodeSources loads (mergedOptions entry.options) =
      ([], some (.obj [])) := by
    simp [decodeSources, hraw, hok]
  rw [async_setup_entry_reach hassData entry loads paramsAll platforms beh host port
    name si tmo [] (.obj []) hhost hport hname hsi hto hdec]
  have hzb := countP_map_eq_zero Event.forwardSetup isBuildSourceDict platforms
    fun _ => rfl
  have hzs := countP_map_eq_zero Event.forwardSetup isSetSourceDict platforms
    fun _ => rfl
  rcases beh with ⟨c, cn, qd, qz, ss, bs⟩
  refine ⟨?_, ?_, ?_⟩
  · cases c <;> cases cn <;> cases qd <;> cases qz <;> cases bs <;>
      simp [initPhase, JsonValue.truthy, isSetSourceDict, hzs]
  · cases c <;> cases cn <;> cases qd <;> cases qz <;> cases bs <;>
      simp [initPhase, JsonValue.truthy, isBuildSourceDict, hzb]
  · intro hpre
    simp only [preSourceOk, Bool.and_eq_true, Option.isNone_iff_eq_none] at hpre
    obtain ⟨⟨⟨hc, hcn⟩, hqd⟩, hqz⟩ := hpre
    subst hc hcn hqd hqz
    cases bs <;> simp [initPhase, JsonValue.truthy, isBuildSourceDict, hzb]

/-- Witness for C6 at a concrete entry whose sources decode to `{}`. -/
theorem setup_empty_sources_builds_once_witness :
    (async_setup_entry [] demoEntryEmpty loadsDemo [] ["media_player"]
      behOk).trace.countP isSetSourceDict = 0 ∧
    (async_setup_entry [] demoEntryEmpty loadsDemo [] ["media_player"]
      behOk).trace.countP isBuildSourceDict ≤ 1 ∧
    (preSourceOk behOk = true →
      (async_setup_entry [] demoEntryEmpty loadsDemo [] ["media_player"]
        behOk).trace.countP isBuildSourceDict = 1) :=
  setup_empty_sources_builds_once [] demoEntryEmpty loadsDemo [] ["media_player"]
    behOk (.str "avr.local") (.int 8102) (.str "AVR") (.int 60) (.int 2)
    (.str "emptyobj") rfl rfl rfl rfl rfl rfl rfl

/-- C2: when the sources option is a malformed JSON string, setup logs the
error exactly once, falls back to the empty mapping (so auto-discovery
runs, not set-source-dict), and with the client calls succeeding it
completes and returns true rather than raising. -/
theorem setup_malformed_sources_recovers (hassData : List String)
    (entry : ConfigEntry) (loads : PyVal → Except PyExc JsonValue)
    (paramsAll platforms : List String) (beh : AVRBehavior)
    (host port name si tmo raw : PyVal) (err : PyExc)
    (hhost : dictGet entry.data CONF_HOST = some host)
    (hport : dictGet entry.data CONF_PORT = some port)
    (hname : dictGet entry.data CONF_NAME = some name)
    (hsi : dictGet (mergedOptions entry.options) CONF_SCAN_INTERVAL = some si)
    (hto : dictGet (mergedOptions entry.options) CONF_TIMEOUT = some tmo)
    (hraw : dictGet (mergedOptions entry.options) CONF_SOURCES = some raw)
    (herr : loads raw = .error err) (hok : allOk beh = true) :
    (async_setup_entry hassData entry loads paramsAll platforms beh).result =
      .ok true ∧
    (async_setup_entry hassData entry loads paramsAll platforms beh).trace.countP
      isLogInvalidSources = 1 ∧
    (async_setup_entry hassData entry loads paramsAll platforms beh).trace.countP
      isBuildSourceDict = 1 ∧
    (async_setup_entry hassData entry loads paramsAll platforms beh).trace.countP
      isSetSourceDict = 0 := by
  have hdec : decodeSources loads (mergedOptions entry.options) =
      ([.logInvalidSources raw], some (.obj [])) := by
    simp [decodeSources, hraw, herr]
  rw [async_setup_entry_reach hassData entry loads paramsAll platforms beh host port
    name si tmo [.logInvalidSources raw] (.obj []) hhost hport hname hsi hto hdec]
  rcases beh with ⟨c, cn, qd, qz, ss, bs⟩
  simp only [allOk, preSourceOk, Bool.and_eq_true, Option.isNone_iff_eq_none] at hok
  obtain ⟨⟨⟨⟨⟨hc, hcn⟩, hqd⟩, hqz⟩, hss⟩, hbs⟩ := hok
  subst hc hcn hqd hqz hss hbs
  have hzl := countP_map_eq_zero Event.forwardSetup isLogInvalidSources platforms
    fun _ => rfl
  have hzb := countP_map_eq_zero Event.forwardSetup isBuildSourceDict platforms
    fun _ => rfl
  have hzs := countP_map_eq_zero Event.forwardSetup isSetSourceDict platforms
    fun _ => rfl
  refine ⟨?_, ?_, ?_, ?_⟩ <;>
    simp [initPhase, JsonValue.truthy, isLogInvalidSources, isBuildSourceDict,
      isSetSourceDict, hzl, hzb, hzs]

/-- Witness for C2 at a concrete entry with a malformed sources option. -/
theorem setup_malformed_sources_recovers_witness :
    (async_setup_entry [] demoEntryBad loadsDemo [] ["media_player"]
      behOk).result = .ok true ∧
    (async_setup_entry [] demoEntryBad loadsDemo [] ["media_player"]
      behOk).trace.countP isLogInvalidSources = 1 ∧
    (async_setup_entry [] demoEntryBad loadsDemo [] ["media_player"]
      behOk).trace.countP isBuildSourceDict = 1 ∧
    (async_setup_entry [] demoEntryBad loadsDemo [] ["media_player"]
      behOk).trace.countP isSetSourceDict = 0 :=
  setup_malformed_sources_recovers [] demoEntryBad loadsDemo [] ["media_player"]
    behOk (.str "avr.local") (.int 8102) (.str "AVR") (.int 60) (.int 2)
    (.str "notjson") .valueError rfl rfl rfl rfl rfl rfl rfl rfl

/-- In the `try` block, the first client-call failure determines the
result through the exception filter of lines 87-88. -/
theorem initPhase_result_of_failure (hassData : List String) (entry : ConfigEntry)
    (name : PyVal) (preEvents : List Event) (sources : JsonValue)
    (host port tmo si : PyVal) (params : PyDict) (platforms : List String)
    (beh : AVRBehavior) (e : PyExc)
    (hf : firstInitFailure beh sources.truthy = some e) :
    (initPhase hassData entry name preEvents sources host port tmo si params
      platforms beh).result = handleInitExc e := by
  rcases beh with ⟨c, cn, qd, qz, ss, bs⟩
  cases ht : sources.truthy <;>
    cases c <;> cases cn <;> cases qd <;> cases qz <;> cases ss <;> cases bs <;>
      simp_all [initPhase, firstInitFailure, Option.orElse]

/-- C3: if a client call of the initialization sequence raises, setup
raises the not-ready condition when the exception is a timeout, value or
attribute error, and propagates the exception unhandled otherwise. -/
theorem setup_init_failure_translated (hassData : List String)
    (entry : ConfigEntry) (loads : PyVal → Except PyExc JsonValue)
    (paramsAll platforms : List String) (beh : AVRBehavior)
    (host port name si tmo : PyVal) (evs : List Event) (s : JsonValue) (e : PyExc)
    (hhost : dictGet entry.data CONF_HOST = some host)
    (hport : dictGet entry.data CONF_PORT = some port)
    (hname : dictGet entry.data CONF_NAME = some name)
    (hsi : dictGet (mergedOptions entry.options) CONF_SCAN_INTERVAL = some si)
    (hto : dictGet (mergedOptions entry.options) CONF_TIMEOUT = some tmo)
    (hdec : decodeSources loads (mergedOptions entry.options) = (evs, some s))
    (hf : firstInitFailure beh s.truthy = some e) :
    (handledExc e = true →
      (async_setup_entry hassData entry loads paramsAll platforms beh).result =
        .notReady e) ∧
    (handledExc e = false →
      (async_setup_entry hassData entry loads paramsAll platforms beh).result =
        .exc e) := by
  rw [async_setup_entry_reach hassData entry loads paramsAll platforms beh host port
    name si tmo evs s hhost hport hname hsi hto hdec]
  rw [initPhase_result_of_failure hassData entry name evs s host port tmo si
    (filteredParams paramsAll entry.options) platforms beh e hf]
  constructor <;> intro hh <;> simp [handleInitExc, hh]

/-- Client behaviour in which `connect` raises a timeout and everything
else succeeds. -/
def behTimeout : AVRBehavior := ⟨none, some .timeoutError, none, none, none, none⟩

/-- Witness for C3: a timeout during connect becomes the not-ready
condition. -/
theorem setup_init_failure_translated_witness :
    (handledExc .timeoutError = true →
      (async_setup_entry [] demoEntry loadsDemo [] ["media_player"]
        behTimeout).result = .notReady .timeoutError) ∧
    (handledExc .timeoutError = false →
      (async_setup_entry [] demoEntry loadsDemo [] ["media_player"]
        behTimeout).result = .exc .timeoutError) :=
  setup_init_failure_translated [] demoEntry loadsDemo [] ["media_player"]
    behTimeout (.str "avr.local") (.int 8102) (.str "AVR") (.int 60) (.int 2) []
    (JsonValue.obj [("TV", JsonValue.str "05")]) .timeoutError
    rfl rfl rfl rfl rfl rfl rfl

/-- C10: a setup that raises the not-ready condition leaves the per-entry
client map unchanged and has neither stored a client, nor registered a
device, nor forwarded any platform setup, nor added an update listener. -/
theorem setup_not_ready_leaves_state (hassData : List String)
    (entry : ConfigEntry) (loads : PyVal → Except PyExc JsonValue)
    (paramsAll platforms : List String) (beh : AVRBehavior) (e : PyExc)
    (hnr : (async_setup_entry hassData entry loads paramsAll platforms beh).result =
      .notReady e) :
    (async_setup_entry hassData entry loads paramsAll platforms beh).store =
      hassData ∧
    (async_setup_entry hassData entry loads paramsAll platforms beh).trace.countP
      isStoreClient = 0 ∧
    (async_setup_entry hassData entry loads paramsAll platforms beh).trace.countP
      isRegisterDevice = 0 ∧
    (async_setup_entry hassData entry loads paramsAll platforms beh).trace.countP
      isForwardSetup = 0 ∧
    (async_setup_entry hassData entry loads paramsAll platforms beh).trace.countP
      isAddUpdateListener = 0 := by
  obtain ⟨si, hsi⟩ := mergedOptions_scan entry.options
  obtain ⟨tmo, hto⟩ := mergedOptions_timeout entry.options
  cases hhost : dictGet entry.data CONF_HOST with
  | none => simp [async_setup_entry, hhost]
  | some host =>
  cases hport : dictGet entry.data CONF_PORT with
  | none => simp [async_setup_entry, hhost, hport]
  | some port =>
  cases hname : dictGet entry.data CONF_NAME with
  | none => simp [async_setup_entry, hhost, hport, hname]
  | some name =>
  rcases hdec : decodeSources loads (mergedOptions entry.options) with ⟨evs, osrc⟩
  cases osrc with
  | none =>
    unfold async_setup_entry
    rw [hhost, hport, hname]
    simp only [if_isEmpty_eq]
    rw [hsi, hto, hdec]
    simp
  | some s =>
  rw [async_setup_entry_reach hassData entry loads paramsAll platforms beh host port
    name si tmo evs s hhost hport hname hsi hto hdec] at hnr ⊢
  have hevs := decodeSources_fst loads (mergedOptions entry.options)
  rw [hdec] at hevs
  rcases beh with ⟨c, cn, qd, qz, ss, bs⟩
  rcases hevs with hevs | ⟨raw, hevs⟩ <;> subst hevs <;>
    cases ht : s.truthy <;>
      cases c <;> cases cn <;> cases qd <;> cases qz <;> cases ss <;> cases bs <;>
        simp_all [initPhase, isStoreClient, isRegisterDevice, isForwardSetup,
          isAddUpdateListener]

/-- Witness for C10: a timeout during connect leaves the map empty and the
post-initialization effects absent. -/
theorem setup_not_ready_leaves_state_witness :
    (async_setup_entry [] demoEntry loadsDemo [] ["media_player"]
      behTimeout).store = [] ∧
    (async_setup_entry [] demoEntry loadsDemo [] ["media_player"]
      behTimeout).trace.countP isStoreClient = 0 ∧
    (async_setup_entry [] demoEntry loadsDemo [] ["media_player"]
      behTimeout).trace.countP isRegisterDevice = 0 ∧
    (async_setup_entry [] demoEntry loadsDemo [] ["media_player"]
      behTimeout).trace.countP isForwardSetup = 0 ∧
    (async_setup_entry [] demoEntry loadsDemo [] ["media_player"]
      behTimeout).trace.countP isAddUpdateListener = 0 :=
  setup_not_ready_leaves_state [] demoEntry loadsDemo [] ["media_player"]
    behTimeout .timeoutError rfl

/-- Lookup in the filtered params: exactly the entry options whose key is
a recognized protocol parameter. -/
theorem dictGet_filteredParams (paramsAll : List String) (eo : PyDict)
    (k : String) :
    dictGet (filteredParams paramsAll eo) k =
      if k ∈ paramsAll then dictGet eo k else none := by
  induction paramsAll with
  | nil => simp [filteredParams, dictGet]
  | cons hd tl ih =>
    cases h : dictGet eo hd with
    | none =>
      have step : filteredParams (hd :: tl) eo = filteredParams tl eo := by
        simp [filteredParams, h]
      rw [step, ih]
      by_cases hk : hd = k
      · subst hk
        by_cases hmem : hd ∈ tl
        · simp [hmem]
        · simp [hmem, h]
      · simp [List.mem_cons, Ne.symm hk]
    | some v =>
      have step : filteredParams (hd :: tl) eo = (hd, v) :: filteredParams tl eo := by
        simp [filteredParams, h]
      rw [step]
      simp only [dictGet]
      by_cases hk : hd = k
      · subst hk
        simp [h]
      · rw [if_neg hk, ih]
        simp [List.mem_cons, Ne.symm hk]

/-- C8: the options used by setup are the defaults overridden by the
entry's options (entry options win on every key), and the params mapping
handed to the client constructor holds exactly the entry-option entries
whose key is a recognized protocol parameter. -/
theorem setup_options_merge_params_filter (hassData : List String)
    (entry : ConfigEntry) (loads : PyVal → Except PyExc JsonValue)
    (paramsAll platforms : List String) (beh : AVRBehavior)
    (host port name si tmo : PyVal) (evs : List Event) (s : JsonValue) (k : String)
    (hhost : dictGet entry.data CONF_HOST = some host)
    (hport : dictGet entry.data CONF_PORT = some port)
    (hname : dictGet entry.data CONF_NAME = some name)
    (hsi : dictGet (mergedOptions entry.options) CONF_SCAN_INTERVAL = some si)
    (hto : dictGet (mergedOptions entry.options) CONF_TIMEOUT = some tmo)
    (hdec : decodeSources loads (mergedOptions entry.options) = (evs, some s)) :
    dictGet (mergedOptions entry.options) k =
      ((dictGet entry.options k).orElse fun _ => dictGet OPTIONS_DEFAULTS k) ∧
    dictGet (filteredParams paramsAll entry.options) k =
      (if k ∈ paramsAll then dictGet entry.options k else none) ∧
    (async_setup_entry hassData entry loads paramsAll platforms beh).trace.filter
      isConstructClient =
      [Event.constructClient host port tmo si
        (filteredParams paramsAll entry.options)] := by
  refine ⟨dictGet_mergedOptions entry.options k,
    dictGet_filteredParams paramsAll entry.options k, ?_⟩
  rw [async_setup_entry_reach hassData entry loads paramsAll platforms beh host port
    name si tmo evs s hhost hport hname hsi hto hdec]
  have hevs := decodeSources_fst loads (mergedOptions entry.options)
  rw [hdec] at hevs
  have hfc := filter_map_eq_nil Event.forwardSetup isConstructClient platforms
    fun _ => rfl
  rcases beh with ⟨c, cn, qd, qz, ss, bs⟩
  rcases hevs with hevs | ⟨raw, hevs⟩ <;> subst hevs <;>
    cases ht : s.truthy <;>
      cases c <;> cases cn <;> cases qd <;> cases qz <;> cases ss <;> cases bs <;>
        simp [initPhase, ht, isConstructClient, hfc]

/-- Witness for C8 at a concrete entry with one recognized parameter. -/
theorem setup_options_merge_params_filter_witness :
    dictGet (mergedOptions demoEntry.options) CONF_SCAN_INTERVAL =
      ((dictGet demoEntry.options CONF_SCAN_INTERVAL).orElse fun _ =>
        dictGet OPTIONS_DEFAULTS CONF_SCAN_INTERVAL) ∧
    dictGet (filteredParams ["volume_step"] demoEntry.options) CONF_SCAN_INTERVAL =
      (if CONF_SCAN_INTERVAL ∈ ["volume_step"] then
        dictGet demoEntry.options CONF_SCAN_INTERVAL
      else none) ∧
    (async_setup_entry [] demoEntry loadsDemo ["volume_step"] ["media_player"]
      behOk).trace.filter isConstructClient =
      [Event.constructClient (.str "avr.local") (.int 8102) (.int 2) (.int 60)
        (filteredParams ["volume_step"] demoEntry.options)] :=
  setup_options_merge_params_filter [] demoEntry loadsDemo ["volume_step"]
    ["media_player"] behOk (.str "avr.local") (.int 8102) (.str "AVR") (.int 60)
    (.int 2) [] (JsonValue.obj [("TV", JsonValue.str "05")]) CONF_SCAN_INTERVAL
    rfl rfl rfl rfl rfl rfl
